import Mathlib

/-!
Verification of the subscription CRUD service core: date/ID normalization,
request validation, partial-update merging, and the dynamic filter query
builder for the cost-analytics aggregate, as implemented in the Go sources
(`internal/service`, `internal/repository`, `internal/handler`).
-/

deriving instance DecidableEq for Except

/-- Errors surfaced by the service layer.  `validation m` models
`ValidationError(m) = fmt.Errorf("%w: %s", ErrValidation, m)`, `notFound`
models `ErrNotFound`, and `other` models any remaining wrapped error. -/
inductive GoErr where
  | validation (msg : String)
  | notFound
  | other (msg : String)
deriving DecidableEq, Repr

/-- Model of `err.Error()` for the modelled errors: `ErrValidation` has text
"validation error", so `ValidationError(m).Error()` is
"validation error: " ++ m; `ErrNotFound.Error()` is "resource not found". -/
def errString : GoErr → String
  | .validation m => "validation error: " ++ m
  | .notFound => "resource not found"
  | .other m => m

/-- Model of `handler.UserFacingErrorMessage`: strips the "validation error: "
text from the front of the error string when present (Go slices the
byte range of the matched text; on a matched ASCII text this equals
dropping that many characters). -/
def userFacingErrorMessage (msg : String) : String :=
  let pre : String := "validation error" ++ ": "
  if pre.data.isPrefixOf msg.data then String.mk (msg.data.drop pre.data.length) else msg

/-- C10: round-trip of the validation-error wrapper — extracting the user
facing message from a wrapped validation error returns exactly the message
the service layer supplied. -/
theorem validation_error_message_roundtrip (m : String) :
    userFacingErrorMessage (errString (GoErr.validation m)) = m := by
  cases m with
  | mk l =>
    show userFacingErrorMessage (String.mk ("validation error: ".data ++ l)) = String.mk l
    simp [userFacingErrorMessage, List.isPrefixOf]

/-- In-memory time value as produced by `time.Parse` with the month-year
layout: only calendar fields matter (location is always UTC and carries no
offset for these values). -/
structure GoDate where
  year : Nat
  month : Nat
  day : Nat
  hour : Nat
  minute : Nat
  second : Nat
deriving DecidableEq, Repr

/-- Model of `getnum` from Go time parsing with the fixed-width flag set:
reads exactly two decimal digits from the front of the input. -/
def getnum2 : List Char → Option (Nat × List Char)
  | c1 :: c2 :: rest =>
    if c1.isDigit then
      if c2.isDigit then some ((c1.toNat - 48) * 10 + (c2.toNat - 48), rest) else none
    else none
  | _ => none

/-- The `stdLongYear` ("2006") branch of Go time parsing: requires at least
four characters beginning with a digit, consumes exactly four, and they must
all be digits for `atoi` to succeed. -/
def getnum4 : List Char → Option (Nat × List Char)
  | c1 :: c2 :: c3 :: c4 :: rest =>
    if c1.isDigit ∧ c2.isDigit ∧ c3.isDigit ∧ c4.isDigit then
      some ((c1.toNat - 48) * 1000 + (c2.toNat - 48) * 100 + (c3.toNat - 48) * 10
        + (c4.toNat - 48), rest)
    else none
  | _ => none

/-- Model of `time.Parse("01-2006", value)` specialised to the constant layout
`monthYearLayout`: a fixed two-digit month (range-checked to 01..12), a
literal hyphen, a four-digit year, and no trailing text.  Day defaults to 1
and the clock fields to 0 (midnight, UTC). -/
def goTimeParseMonthYear (value : String) : Option GoDate :=
  match getnum2 value.data with
  | none => none
  | some (month, rest1) =>
    match rest1 with
    | [] => none
    | sep :: rest2 =>
      if sep = '-' then
        match getnum4 rest2 with
        | none => none
        | some (year, rest3) =>
          if rest3 = [] then
            if 1 ≤ month ∧ month ≤ 12 then some ⟨year, month, 1, 0, 0, 0⟩ else none
          else none
      else none

/-- Model of `service.ParseMonthYear(fieldName, value)`. -/
def ParseMonthYear (fieldName value : String) : Except GoErr GoDate :=
  match goTimeParseMonthYear value with
  | some t => .ok t
  | none => .error (.validation ("incorrect format " ++ fieldName ++ " (expected MM-YYYY)"))

/-- Specification-side pattern check: the string matches `MM-YYYY`, i.e. two
decimal digits forming a month in 01..12, a hyphen, then four decimal
digits, and nothing else. -/
def isMMYYYY (s : String) : Bool :=
  match s.data with
  | [m1, m2, sep, y1, y2, y3, y4] =>
    m1.isDigit && m2.isDigit && sep == '-' && y1.isDigit && y2.isDigit && y3.isDigit &&
    y4.isDigit && decide (1 ≤ (m1.toNat - 48) * 10 + (m2.toNat - 48)) &&
    decide ((m1.toNat - 48) * 10 + (m2.toNat - 48) ≤ 12)
  | _ => false

/-- The month denoted by a string matching `MM-YYYY` (junk value otherwise). -/
def mmOf (s : String) : Nat :=
  match s.data with
  | [m1, m2, _, _, _, _, _] => (m1.toNat - 48) * 10 + (m2.toNat - 48)
  | _ => 0

/-- The year denoted by a string matching `MM-YYYY` (junk value otherwise). -/
def yyyyOf (s : String) : Nat :=
  match s.data with
  | [_, _, _, y1, y2, y3, y4] =>
    (y1.toNat - 48) * 1000 + (y2.toNat - 48) * 100 + (y3.toNat - 48) * 10 + (y4.toNat - 48)
  | _ => 0

/-- Inversion for the two-digit reader. -/
theorem getnum2_some {l : List Char} {n : Nat} {r : List Char}
    (h : getnum2 l = some (n, r)) :
    ∃ c1 c2, l = c1 :: c2 :: r ∧ c1.isDigit = true ∧ c2.isDigit = true ∧
      n = (c1.toNat - 48) * 10 + (c2.toNat - 48) := by
  match l with
  | [] => simp [getnum2] at h
  | [c1] => simp [getnum2] at h
  | c1 :: c2 :: rest =>
    by_cases h1 : c1.isDigit <;> by_cases h2 : c2.isDigit <;>
      simp [getnum2, h1, h2] at h
    exact ⟨c1, c2, by simp [h.2], h1, h2, h.1.symm⟩

/-- Inversion for the four-digit reader. -/
theorem getnum4_some {l : List Char} {n : Nat} {r : List Char}
    (h : getnum4 l = some (n, r)) :
    ∃ c1 c2 c3 c4, l = c1 :: c2 :: c3 :: c4 :: r ∧ c1.isDigit = true ∧ c2.isDigit = true ∧
      c3.isDigit = true ∧ c4.isDigit = true ∧
      n = (c1.toNat - 48) * 1000 + (c2.toNat - 48) * 100 + (c3.toNat - 48) * 10
        + (c4.toNat - 48) := by
  match l with
  | [] => simp [getnum4] at h
  | [c1] => simp [getnum4] at h
  | [c1, c2] => simp [getnum4] at h
  | [c1, c2, c3] => simp [getnum4] at h
  | c1 :: c2 :: c3 :: c4 :: rest =>
    by_cases h1 : c1.isDigit ∧ c2.isDigit ∧ c3.isDigit ∧ c4.isDigit <;>
      simp [getnum4, h1] at h
    exact ⟨c1, c2, c3, c4, by simp [h.2], h1.1, h1.2.1, h1.2.2.1, h1.2.2.2, h.1.symm⟩

/-- If the parser succeeds, the input matched `MM-YYYY` and the result is
the first day of the denoted month and year at midnight. -/
theorem goTimeParseMonthYear_some {s : String} {t : GoDate}
    (h : goTimeParseMonthYear s = some t) :
    isMMYYYY s = true ∧ t = ⟨yyyyOf s, mmOf s, 1, 0, 0, 0⟩ := by
  rcases hg : getnum2 s.data with _ | ⟨month, rest1⟩ <;>
    simp only [goTimeParseMonthYear, hg] at h
  · exact absurd h (by simp)
  · cases rest1 with
    | nil => exact absurd h (by simp)
    | cons sep rest2 =>
      simp only [] at h
      by_cases hs : sep = '-'
      · rw [if_pos hs] at h
        rcases hy : getnum4 rest2 with _ | ⟨year, rest3⟩ <;> simp only [hy] at h
        · exact absurd h (by simp)
        · by_cases he : rest3 = ([] : List Char)
          · rw [if_pos he] at h
            by_cases hm : 1 ≤ month ∧ month ≤ 12
            · rw [if_pos hm] at h
              have ht : t = ⟨year, month, 1, 0, 0, 0⟩ := by
                injection h with h2; exact h2.symm
              obtain ⟨c1, c2, hl2, h1, h2, hn2⟩ := getnum2_some hg
              obtain ⟨d1, d2, d3, d4, hl4, g1, g2, g3, g4, hn4⟩ := getnum4_some hy
              subst he hn2 hn4
              have hdata : s.data = [c1, c2, '-', d1, d2, d3, d4] := by
                rw [hl2, hl4]; simp [hs]
              constructor
              · simp [isMMYYYY, hdata, h1, h2, g1, g2, g3, g4, hm.1, hm.2]
              · rw [ht]
                simp [mmOf, yyyyOf, hdata]
            · rw [if_neg hm] at h
              exact absurd h (by simp)
          · rw [if_neg he] at h
            exact absurd h (by simp)
      · rw [if_neg hs] at h
        exact absurd h (by simp)

/-- If the string matches `MM-YYYY`, the parser succeeds with the first day
of the denoted month and year at midnight. -/
theorem goTimeParseMonthYear_of_match {s : String}
    (h : isMMYYYY s = true) :
    goTimeParseMonthYear s = some ⟨yyyyOf s, mmOf s, 1, 0, 0, 0⟩ := by
  unfold isMMYYYY at h
  split at h
  case h_2 => exact absurd h (by simp)
  case h_1 m1 m2 sep y1 y2 y3 y4 heq =>
    simp only [Bool.and_eq_true, beq_iff_eq, decide_eq_true_eq] at h
    obtain ⟨⟨⟨⟨⟨⟨⟨⟨h1, h2⟩, hsep⟩, g1⟩, g2⟩, g3⟩, g4⟩, hm1⟩, hm2⟩ := h
    simp [goTimeParseMonthYear, getnum2, getnum4, heq, h1, h2, g1, g2, g3, g4, hsep,
      hm1, hm2, mmOf, yyyyOf]

/-- C1: `ParseMonthYear(f, s)` returns the first day (midnight) of the given
month and year exactly when `s` matches `MM-YYYY` (two-digit month 01..12,
four-digit year); every other string fails with the validation error
"incorrect format <f> (expected MM-YYYY)". -/
theorem parseMonthYear_spec (f s : String) :
    (isMMYYYY s = true →
      ParseMonthYear f s = .ok ⟨yyyyOf s, mmOf s, 1, 0, 0, 0⟩) ∧
    (isMMYYYY s = false →
      ParseMonthYear f s =
        .error (.validation ("incorrect format " ++ f ++ " (expected MM-YYYY)"))) := by
  constructor
  · intro h
    simp [ParseMonthYear, goTimeParseMonthYear_of_match h]
  · intro h
    rcases hp : goTimeParseMonthYear s with _ | t
    · simp [ParseMonthYear, hp]
    · exact absurd (goTimeParseMonthYear_some hp).1 (by simp [h])

/-- Concrete instances of C1: a valid month-year string parses to the first
day of the month, and a malformed one is rejected with the exact message. -/
theorem parseMonthYear_spec_witness :
    ParseMonthYear "start_date" "07-2025" = .ok ⟨2025, 7, 1, 0, 0, 0⟩ ∧
    ParseMonthYear "end_date" "2025-07" =
      .error (.validation "incorrect format end_date (expected MM-YYYY)") := by
  constructor
  · exact (parseMonthYear_spec "start_date" "07-2025").1 (by decide)
  · exact (parseMonthYear_spec "end_date" "2025-07").2 (by decide)

/-- Model of `model.CostAnalyticsRequest`: the filter bag for the analytics query.
As in the Go struct, an empty string means the filter is absent. -/
structure CostAnalyticsRequest where
  UserID : String
  ServiceName : String
  StartDateStr : String
  EndDateStr : String
deriving DecidableEq, Repr

/-- The statement text and bound-argument list built by
`SubscriptionRepository.GetTotalCost` before the query is executed:
starts from `SELECT SUM(price) FROM subscriptions WHERE 1=1` and appends
one parameterized clause per present filter, threading the placeholder
counter exactly as the Go code does. -/
def buildTotalCostQuery (filters : CostAnalyticsRequest) : String × List String :=
  let baseQuery := "SELECT SUM(price) FROM subscriptions WHERE 1=1"
  let args : List String := []
  let argCounter : Nat := 1
  let (baseQuery, args, argCounter) :=
    if filters.UserID ≠ "" then
      (baseQuery ++ " AND user_id = $" ++ toString argCounter,
       args ++ [filters.UserID], argCounter + 1)
    else (baseQuery, args, argCounter)
  let (baseQuery, args, argCounter) :=
    if filters.ServiceName ≠ "" then
      (baseQuery ++ " AND service_name = $" ++ toString argCounter,
       args ++ [filters.ServiceName], argCounter + 1)
    else (baseQuery, args, argCounter)
  let (baseQuery, args, _) :=
    if filters.StartDateStr ≠ "" ∧ filters.EndDateStr ≠ "" then
      (baseQuery ++ " AND start_date BETWEEN $" ++ toString argCounter ++ " AND $"
         ++ toString (argCounter + 1),
       args ++ [filters.StartDateStr, filters.EndDateStr], argCounter + 2)
    else if filters.StartDateStr ≠ "" then
      (baseQuery ++ " AND start_date >= $" ++ toString argCounter,
       args ++ [filters.StartDateStr], argCounter + 1)
    else if filters.EndDateStr ≠ "" then
      (baseQuery ++ " AND start_date <= $" ++ toString argCounter,
       args ++ [filters.EndDateStr], argCounter + 1)
    else (baseQuery, args, argCounter)
  (baseQuery, args)

/-- Number of placeholders consumed by the user-id filter. -/
def nUser (f : CostAnalyticsRequest) : Nat := if f.UserID = "" then 0 else 1

/-- Number of placeholders consumed by the service-name filter. -/
def nService (f : CostAnalyticsRequest) : Nat := if f.ServiceName = "" then 0 else 1

/-- Specification-side user-id clause: present exactly when the filter is,
always bound to the first placeholder. -/
def userClauseSpec (f : CostAnalyticsRequest) : String :=
  if f.UserID = "" then "" else " AND user_id = $1"

/-- Specification-side service-name clause with its placeholder number. -/
def serviceClauseSpec (f : CostAnalyticsRequest) : String :=
  if f.ServiceName = "" then "" else " AND service_name = $" ++ toString (1 + nUser f)

/-- Specification-side start-date clause: a BETWEEN range when both bounds
are present, a one-sided bound otherwise. -/
def dateClauseSpec (f : CostAnalyticsRequest) : String :=
  let n := 1 + nUser f + nService f
  if f.StartDateStr ≠ "" ∧ f.EndDateStr ≠ "" then
    " AND start_date BETWEEN $" ++ toString n ++ " AND $" ++ toString (n + 1)
  else if f.StartDateStr ≠ "" then " AND start_date >= $" ++ toString n
  else if f.EndDateStr ≠ "" then " AND start_date <= $" ++ toString n
  else ""

/-- Exactly the present filter values, in clause order. -/
def presentValues (f : CostAnalyticsRequest) : List String :=
  (if f.UserID = "" then [] else [f.UserID]) ++
  (if f.ServiceName = "" then [] else [f.ServiceName]) ++
  (if f.StartDateStr ≠ "" ∧ f.EndDateStr ≠ "" then [f.StartDateStr, f.EndDateStr]
   else if f.StartDateStr ≠ "" then [f.StartDateStr]
   else if f.EndDateStr ≠ "" then [f.EndDateStr]
   else [])

/-- Normal form of the built query: base text followed by the three clause
groups, with the bound arguments being exactly the present values. -/
theorem buildTotalCostQuery_eq (f : CostAnalyticsRequest) :
    buildTotalCostQuery f =
      ("SELECT SUM(price) FROM subscriptions WHERE 1=1" ++ userClauseSpec f
        ++ serviceClauseSpec f ++ dateClauseSpec f, presentValues f) := by
  by_cases h1 : f.UserID = "" <;> by_cases h2 : f.ServiceName = "" <;>
    by_cases h3 : f.StartDateStr = "" <;> by_cases h4 : f.EndDateStr = "" <;>
    simp [buildTotalCostQuery, userClauseSpec, serviceClauseSpec, dateClauseSpec,
      presentValues, nUser, nService, h1, h2, h3, h4] <;>
    decide

/-- C2: the statement text built by `GetTotalCost` depends only on which
filter fields are present — two filters with the same presence pattern give
character-for-character identical SQL — and every present value travels
only through the bound-argument list. -/
theorem total_cost_query_value_independent (f g : CostAnalyticsRequest)
    (h1 : f.UserID = "" ↔ g.UserID = "") (h2 : f.ServiceName = "" ↔ g.ServiceName = "")
    (h3 : f.StartDateStr = "" ↔ g.StartDateStr = "")
    (h4 : f.EndDateStr = "" ↔ g.EndDateStr = "") :
    (buildTotalCostQuery f).1 = (buildTotalCostQuery g).1 ∧
    (buildTotalCostQuery f).2 = presentValues f ∧
    (buildTotalCostQuery g).2 = presentValues g := by
  rw [buildTotalCostQuery_eq f, buildTotalCostQuery_eq g]
  refine ⟨?_, rfl, rfl⟩
  have enU : nUser f = nUser g := by
    unfold nUser
    by_cases hf : f.UserID = ""
    · rw [if_pos hf, if_pos (h1.mp hf)]
    · rw [if_neg hf, if_neg (fun h => hf (h1.mpr h))]
  have enS : nService f = nService g := by
    unfold nService
    by_cases hf : f.ServiceName = ""
    · rw [if_pos hf, if_pos (h2.mp hf)]
    · rw [if_neg hf, if_neg (fun h => hf (h2.mpr h))]
  have e1 : userClauseSpec f = userClauseSpec g := by
    unfold userClauseSpec
    by_cases hf : f.UserID = ""
    · rw [if_pos hf, if_pos (h1.mp hf)]
    · rw [if_neg hf, if_neg (fun h => hf (h1.mpr h))]
  have e2 : serviceClauseSpec f = serviceClauseSpec g := by
    unfold serviceClauseSpec
    rw [enU]
    by_cases hf : f.ServiceName = ""
    · rw [if_pos hf, if_pos (h2.mp hf)]
    · rw [if_neg hf, if_neg (fun h => hf (h2.mpr h))]
  have e3 : dateClauseSpec f = dateClauseSpec g := by
    by_cases hf3 : f.StartDateStr = "" <;> by_cases hf4 : f.EndDateStr = ""
    · have hg3 := h3.mp hf3
      have hg4 := h4.mp hf4
      simp [dateClauseSpec, hf3, hf4, hg3, hg4, enU, enS]
    · have hg3 := h3.mp hf3
      have hg4 : ¬g.EndDateStr = "" := fun h => hf4 (h4.mpr h)
      simp [dateClauseSpec, hf3, hf4, hg3, hg4, enU, enS]
    · have hg3 : ¬g.StartDateStr = "" := fun h => hf3 (h3.mpr h)
      have hg4 := h4.mp hf4
      simp [dateClauseSpec, hf3, hf4, hg3, hg4, enU, enS]
    · have hg3 : ¬g.StartDateStr = "" := fun h => hf3 (h3.mpr h)
      have hg4 : ¬g.EndDateStr = "" := fun h => hf4 (h4.mpr h)
      simp [dateClauseSpec, hf3, hf4, hg3, hg4, enU, enS]
  rw [e1, e2, e3]

/-- Concrete instance of C2: two filters with the same presence pattern but
different values produce the same statement text, with the values only in
the argument lists. -/
theorem total_cost_query_value_independent_witness :
    (buildTotalCostQuery ⟨"aaa", "", "2025-07-01", ""⟩).1 =
      (buildTotalCostQuery ⟨"bbb", "", "2026-01-01", ""⟩).1 ∧
    (buildTotalCostQuery ⟨"aaa", "", "2025-07-01", ""⟩).2 =
      presentValues ⟨"aaa", "", "2025-07-01", ""⟩ ∧
    (buildTotalCostQuery ⟨"bbb", "", "2026-01-01", ""⟩).2 =
      presentValues ⟨"bbb", "", "2026-01-01", ""⟩ :=
  total_cost_query_value_independent _ _ (by decide) (by decide) (by decide) (by decide)

/-- C3: the built statement is `WHERE 1=1` conjoined with exactly the
parameterized clauses for the present filters, numbered sequentially, and
the argument list holds exactly the present values in clause order. -/
theorem total_cost_query_shape (f : CostAnalyticsRequest) :
    buildTotalCostQuery f =
      ("SELECT SUM(price) FROM subscriptions WHERE 1=1" ++ userClauseSpec f
        ++ serviceClauseSpec f ++ dateClauseSpec f, presentValues f) :=
  buildTotalCostQuery_eq f

/-- A UUID value as 16 bytes, the representation used by the uuid package. -/
abbrev GoUUID := List Nat

/-- Model of `model.Subscription`: the persisted entity.  `CreatedAt` is an opaque
server-assigned timestamp. -/
structure Subscription where
  ID : GoUUID
  ServiceName : String
  Price : Int
  UserID : GoUUID
  StartDate : GoDate
  EndDate : Option GoDate
  CreatedAt : Nat
deriving DecidableEq, Repr

/-- Lower-case hex digit for a value below 16. -/
def hexDigitChar (n : Nat) : Char :=
  if n < 10 then Char.ofNat (48 + n) else Char.ofNat (87 + n)

/-- Two-character lower-case hex rendering of a byte. -/
def byteHex (b : Nat) : List Char := [hexDigitChar (b / 16), hexDigitChar (b % 16)]

/-- Canonical `8-4-4-4-12` lower-case text of a UUID, as rendered by the
uuid package (and by the database) for comparison against a text filter. -/
def uuidToString (u : GoUUID) : String :=
  match u with
  | [b0, b1, b2, b3, b4, b5, b6, b7, b8, b9, b10, b11, b12, b13, b14, b15] =>
    String.mk (byteHex b0 ++ byteHex b1 ++ byteHex b2 ++ byteHex b3 ++ ['-'] ++ byteHex b4
      ++ byteHex b5 ++ ['-'] ++ byteHex b6 ++ byteHex b7 ++ ['-'] ++ byteHex b8 ++ byteHex b9
      ++ ['-'] ++ byteHex b10 ++ byteHex b11 ++ byteHex b12 ++ byteHex b13 ++ byteHex b14
      ++ byteHex b15)
  | _ => ""

/-- Zero-padded two-digit decimal field of an ISO date. -/
def pad2 (n : Nat) : String := if n < 10 then "0" ++ toString n else toString n

/-- Zero-padded four-digit year of an ISO date. -/
def pad4 (n : Nat) : String :=
  if n < 10 then "000" ++ toString n
  else if n < 100 then "00" ++ toString n
  else if n < 1000 then "0" ++ toString n
  else toString n

/-- Model of `YYYY-MM-DD` rendering of a stored date (Go layout "2006-01-02"). -/
def dateISO (d : GoDate) : String := pad4 d.year ++ "-" ++ pad2 d.month ++ "-" ++ pad2 d.day

/-- Lexicographic string order used to model SQL date comparison on ISO
date text (exact for zero-padded dates). -/
def strLe (a b : String) : Bool := decide (a < b) || a == b

/-- SQL semantics of the predicate built by `GetTotalCost`: a row satisfies
`WHERE 1=1` plus one conjunct per present filter — user-id equality,
service-name equality, and the start-date range/bound clauses — mirroring
the clause selection of the Go builder. -/
def rowMatches (filters : CostAnalyticsRequest) (r : Subscription) : Bool :=
  (filters.UserID == "" || uuidToString r.UserID == filters.UserID) &&
  (filters.ServiceName == "" || r.ServiceName == filters.ServiceName) &&
  (if filters.StartDateStr ≠ "" ∧ filters.EndDateStr ≠ "" then
     strLe filters.StartDateStr (dateISO r.StartDate) &&
     strLe (dateISO r.StartDate) filters.EndDateStr
   else if filters.StartDateStr ≠ "" then strLe filters.StartDateStr (dateISO r.StartDate)
   else if filters.EndDateStr ≠ "" then strLe (dateISO r.StartDate) filters.EndDateStr
   else true)

/-- Model of `SUM(price)` over the matching rows as the database reports it: `NULL`
(`none`) when no row matches, the sum otherwise. -/
def sumPriceSQL (rows : List Subscription) (filters : CostAnalyticsRequest) : Option Int :=
  let matching := rows.filter (rowMatches filters)
  if matching.isEmpty then none else some (matching.foldl (fun acc r => acc + r.Price) 0)

/-- Model of `SubscriptionRepository.GetTotalCost` after the scan into
`sql.NullInt64`: an invalid (NULL) sum is reported as 0 without error. -/
def getTotalCost (rows : List Subscription) (filters : CostAnalyticsRequest) : Int :=
  match sumPriceSQL rows filters with
  | none => 0
  | some v => v

/-- C9: a NULL aggregate (zero matching rows) is returned to the caller as
0 rather than an error or null, and an all-absent filter adds no condition,
so every row matches and the sum ranges over the whole table. -/
theorem total_cost_null_and_empty_filter :
    (∀ (rows : List Subscription) (filters : CostAnalyticsRequest),
      rows.filter (rowMatches filters) = [] → getTotalCost rows filters = 0) ∧
    (∀ filters : CostAnalyticsRequest,
      filters.UserID = "" → filters.ServiceName = "" → filters.StartDateStr = "" →
      filters.EndDateStr = "" →
      (buildTotalCostQuery filters).1 = "SELECT SUM(price) FROM subscriptions WHERE 1=1" ∧
      ∀ rows : List Subscription, rows.filter (rowMatches filters) = rows) := by
  constructor
  · intro rows filters h
    simp [getTotalCost, sumPriceSQL, h]
  · intro filters h1 h2 h3 h4
    constructor
    · rw [buildTotalCostQuery_eq]
      simp [userClauseSpec, serviceClauseSpec, dateClauseSpec, nUser, nService, h1, h2, h3, h4]
    · intro rows
      refine List.filter_eq_self.mpr (fun r _ => ?_)
      simp [rowMatches, h1, h2, h3, h4]

/-- Concrete instances of C9: the empty store sums to 0 under a filter, and
the all-absent filter yields the bare aggregate query and keeps every row. -/
theorem total_cost_null_and_empty_filter_witness :
    getTotalCost [] ⟨"", "abc", "", ""⟩ = 0 ∧
    (buildTotalCostQuery ⟨"", "", "", ""⟩).1 =
      "SELECT SUM(price) FROM subscriptions WHERE 1=1" ∧
    [⟨List.replicate 16 0, "Netflix", 500, List.replicate 16 1,
        ⟨2025, 7, 1, 0, 0, 0⟩, none, 3⟩].filter (rowMatches ⟨"", "", "", ""⟩) =
      [⟨List.replicate 16 0, "Netflix", 500, List.replicate 16 1,
        ⟨2025, 7, 1, 0, 0, 0⟩, none, 3⟩] := by
  refine ⟨total_cost_null_and_empty_filter.1 [] ⟨"", "abc", "", ""⟩ (by decide), ?_, ?_⟩
  · exact (total_cost_null_and_empty_filter.2 ⟨"", "", "", ""⟩ rfl rfl rfl rfl).1
  · exact (total_cost_null_and_empty_filter.2 ⟨"", "", "", ""⟩ rfl rfl rfl rfl).2 _

/-- Go `unicode.IsSpace` on the characters reachable from `TrimSpace`:
the Unicode white-space code points. -/
def goIsSpace (c : Char) : Bool :=
  (9 ≤ c.toNat && c.toNat ≤ 13) || c.toNat = 32 || c.toNat = 133 || c.toNat = 160 ||
  c.toNat = 5760 || (8192 ≤ c.toNat && c.toNat ≤ 8202) || c.toNat = 8232 ||
  c.toNat = 8233 || c.toNat = 8239 || c.toNat = 8287 || c.toNat = 12288

/-- Model of `strings.TrimSpace`: removes leading and trailing white space. -/
def trimSpace (s : String) : String :=
  String.mk (((s.data.dropWhile goIsSpace).reverse.dropWhile goIsSpace).reverse)

/-- Model of `model.UpdateSubscriptionRequest`: every field optional (`omitempty`
JSON pointers in the Go struct). -/
structure UpdateSubscriptionRequest where
  ServiceName : Option String
  Price : Option Int
  StartDate : Option String
  EndDate : Option String
deriving DecidableEq, Repr

/-- Model of `service.ValidateUpdateRequest`. -/
def validateUpdateRequest (req : UpdateSubscriptionRequest) : Except GoErr Unit :=
  if req.ServiceName = none ∧ req.Price = none ∧ req.StartDate = none ∧ req.EndDate = none then
    .error (.validation "at least one field must be provided for update")
  else if req.ServiceName.any (fun v => trimSpace v == "") then
    .error (.validation "service_name cannot be empty")
  else if req.Price.any (fun v => decide (v ≤ 0)) then
    .error (.validation "price must be greater than zero")
  else if req.StartDate.any (fun v => trimSpace v == "") then
    .error (.validation "start_date cannot be empty")
  else .ok ()

/-- All four optional update fields are absent. -/
def allFieldsAbsent (req : UpdateSubscriptionRequest) : Prop :=
  req.ServiceName = none ∧ req.Price = none ∧ req.StartDate = none ∧ req.EndDate = none

/-- The service name is present but empty or whitespace-only. -/
def serviceNameBlank (req : UpdateSubscriptionRequest) : Prop :=
  ∃ v, req.ServiceName = some v ∧ trimSpace v = ""

/-- The price is present but not greater than zero. -/
def priceNonPositive (req : UpdateSubscriptionRequest) : Prop :=
  ∃ v, req.Price = some v ∧ v ≤ 0

/-- The start date is present but empty or whitespace-only. -/
def startDateBlank (req : UpdateSubscriptionRequest) : Prop :=
  ∃ v, req.StartDate = some v ∧ trimSpace v = ""

/-- C8: `ValidateUpdateRequest` fails exactly on the four documented
conditions with first-fail semantics, succeeds otherwise, and a present but
empty end-date string never causes a validation error. -/
theorem validate_update_request_spec (req : UpdateSubscriptionRequest) :
    (validateUpdateRequest req =
        .error (.validation "at least one field must be provided for update") ↔
      allFieldsAbsent req) ∧
    (validateUpdateRequest req = .error (.validation "service_name cannot be empty") ↔
      serviceNameBlank req) ∧
    (validateUpdateRequest req = .error (.validation "price must be greater than zero") ↔
      ¬serviceNameBlank req ∧ priceNonPositive req) ∧
    (validateUpdateRequest req = .error (.validation "start_date cannot be empty") ↔
      ¬serviceNameBlank req ∧ ¬priceNonPositive req ∧ startDateBlank req) ∧
    (validateUpdateRequest req = .ok () ↔
      ¬allFieldsAbsent req ∧ ¬serviceNameBlank req ∧ ¬priceNonPositive req ∧
        ¬startDateBlank req) ∧
    (req.EndDate = some "" → ¬serviceNameBlank req → ¬priceNonPositive req →
      ¬startDateBlank req → validateUpdateRequest req = .ok ()) := by
  have hS : req.ServiceName.any (fun v => trimSpace v == "") = true ↔ serviceNameBlank req := by
    cases h : req.ServiceName <;> simp [serviceNameBlank, h]
  have hP : req.Price.any (fun v => decide (v ≤ 0)) = true ↔ priceNonPositive req := by
    cases h : req.Price <;> simp [priceNonPositive, h]
  have hD : req.StartDate.any (fun v => trimSpace v == "") = true ↔ startDateBlank req := by
    cases h : req.StartDate <;> simp [startDateBlank, h]
  have hall : (req.ServiceName = none ∧ req.Price = none ∧ req.StartDate = none ∧
      req.EndDate = none) ↔ allFieldsAbsent req := Iff.rfl
  by_cases c1 : allFieldsAbsent req
  · have nc2 : ¬serviceNameBlank req := by
      rintro ⟨v, hv, _⟩; rw [c1.1] at hv; exact Option.noConfusion hv
    have nc3 : ¬priceNonPositive req := by
      rintro ⟨v, hv, _⟩; rw [c1.2.1] at hv; exact Option.noConfusion hv
    have nc4 : ¬startDateBlank req := by
      rintro ⟨v, hv, _⟩; rw [c1.2.2.1] at hv; exact Option.noConfusion hv
    rw [validateUpdateRequest, if_pos (hall.mpr c1)]
    simp [c1, nc2, nc3, nc4, c1.2.2.2]
  · by_cases c2 : serviceNameBlank req
    · rw [validateUpdateRequest, if_neg (fun h => c1 (hall.mp h)), if_pos (hS.mpr c2)]
      simp [c1, c2]
    · by_cases c3 : priceNonPositive req
      · rw [validateUpdateRequest, if_neg (fun h => c1 (hall.mp h)),
          if_neg (fun h => c2 (hS.mp h)), if_pos (hP.mpr c3)]
        simp [c1, c2, c3]
      · by_cases c4 : startDateBlank req
        · rw [validateUpdateRequest, if_neg (fun h => c1 (hall.mp h)),
            if_neg (fun h => c2 (hS.mp h)), if_neg (fun h => c3 (hP.mp h)),
            if_pos (hD.mpr c4)]
          simp [c1, c2, c3, c4]
        · rw [validateUpdateRequest, if_neg (fun h => c1 (hall.mp h)),
            if_neg (fun h => c2 (hS.mp h)), if_neg (fun h => c3 (hP.mp h)),
            if_neg (fun h => c4 (hD.mp h))]
          simp [c1, c2, c3, c4]

/-- Concrete instances of C8: the all-absent request is rejected with the
documented message, and a request whose only present field is an empty
end-date string passes validation. -/
theorem validate_update_request_spec_witness :
    validateUpdateRequest ⟨none, none, none, none⟩ =
      .error (.validation "at least one field must be provided for update") ∧
    validateUpdateRequest ⟨none, some 500, none, some ""⟩ = .ok () := by
  constructor
  · exact (validate_update_request_spec ⟨none, none, none, none⟩).1.mpr
      ⟨rfl, rfl, rfl, rfl⟩
  · refine (validate_update_request_spec ⟨none, some 500, none, some ""⟩).2.2.2.2.2 rfl
      ?_ ?_ ?_
    · rintro ⟨v, hv, _⟩; exact Option.noConfusion hv
    · rintro ⟨v, hv, hle⟩
      injection hv with h
      subst h
      omega
    · rintro ⟨v, hv, _⟩; exact Option.noConfusion hv

/-- Hex digit value accepted by the uuid package's `xvalues` table. -/
def hexVal (c : Char) : Option Nat :=
  if '0' ≤ c ∧ c ≤ '9' then some (c.toNat - 48)
  else if 'a' ≤ c ∧ c ≤ 'f' then some (c.toNat - 87)
  else if 'A' ≤ c ∧ c ≤ 'F' then some (c.toNat - 55)
  else none

/-- Model of `xtob`: two hex digits to one byte. -/
def xtob (c1 c2 : Char) : Option Nat :=
  match hexVal c1, hexVal c2 with
  | some h, some l => some (h * 16 + l)
  | _, _ => none

/-- Reads consecutive hex-digit pairs into bytes. -/
def parseHexPairs : List Char → Option (List Nat)
  | [] => some []
  | c1 :: c2 :: rest =>
    match xtob c1 c2, parseHexPairs rest with
    | some b, some bs => some (b :: bs)
    | _, _ => none
  | _ => none

/-- The canonical `xxxxxxxx-xxxx-xxxx-xxxx-xxxxxxxxxxxx` body: hyphens are
required at offsets 8, 13, 18 and 23 and the remaining 32 characters are
hex-digit pairs. -/
def parseCanonical36 (l : List Char) : Option GoUUID :=
  match l with
  | a1 :: a2 :: a3 :: a4 :: a5 :: a6 :: a7 :: a8 :: h1 :: b1 :: b2 :: b3 :: b4 :: h2 ::
    c1 :: c2 :: c3 :: c4 :: h3 :: d1 :: d2 :: d3 :: d4 :: h4 :: e1 :: e2 :: e3 :: e4 ::
    e5 :: e6 :: e7 :: e8 :: e9 :: e10 :: e11 :: e12 :: [] =>
    if h1 = '-' ∧ h2 = '-' ∧ h3 = '-' ∧ h4 = '-' then
      parseHexPairs [a1, a2, a3, a4, a5, a6, a7, a8, b1, b2, b3, b4, c1, c2, c3, c4,
        d1, d2, d3, d4, e1, e2, e3, e4, e5, e6, e7, e8, e9, e10, e11, e12]
    else none
  | _ => none

/-- ASCII-folding equality used for the `urn:uuid:` marker. -/
def equalFold (a b : List Char) : Bool :=
  a.length == b.length && (a.zip b).all (fun p => p.1.toLower == p.2.toLower)

/-- Model of `uuid.Parse` from the google uuid package: accepts the 36-character
canonical form, the `urn:uuid:`-marked form (45 characters), a 38-character
form that skips the first character and ignores the last (the brace form —
the package checks neither brace), and 32 bare hex digits. -/
def uuidParse (s : String) : Option GoUUID :=
  let l := s.data
  if l.length = 36 then parseCanonical36 l
  else if l.length = 45 then
    if equalFold (l.take 9) "urn:uuid:".data then parseCanonical36 (l.drop 9) else none
  else if l.length = 38 then parseCanonical36 ((l.drop 1).take 36)
  else if l.length = 32 then parseHexPairs l
  else none

/-- Repository operations invoked during a service call, for observing
which statements reach the database. -/
inductive RepoCall where
  | getByID (id : GoUUID)
  | update (id : GoUUID)
  | delete (id : GoUUID)
deriving DecidableEq, Repr

/-- The `subscriptions` table: one row per entity, keyed by `ID`. -/
abbrev DB := List Subscription

/-- Model of `SubscriptionRepository.GetByID`: the row with the given id, or `none`
(the Go code maps `sql.ErrNoRows` to a nil entity with nil error). -/
def repoGetByID (db : DB) (id : GoUUID) : Option Subscription :=
  db.find? (fun r => r.ID == id)

/-- Model of `SubscriptionRepository.Update`: writes the four mutable columns of the
row with the entity's id (`id`, `user_id`, `created_at` are not in the SET
list) and scans the returned `created_at` back into the entity; the
returned `user_id` goes to a discarded temporary. -/
def repoUpdate (db : DB) (sub : Subscription) : DB × Except GoErr Subscription :=
  match db.find? (fun r => r.ID == sub.ID) with
  | none => (db, .error (.other "update record not found"))
  | some row =>
    (db.map (fun r =>
      if r.ID == sub.ID then
        { r with
            ServiceName := sub.ServiceName, Price := sub.Price,
            StartDate := sub.StartDate, EndDate := sub.EndDate }
      else r),
     .ok { sub with CreatedAt := row.CreatedAt })

/-- Model of `SubscriptionRepository.Delete`: removes the row and reports whether
any row was affected. -/
def repoDelete (db : DB) (id : GoUUID) : DB × Bool :=
  (db.filter (fun r => !(r.ID == id)), db.any (fun r => r.ID == id))

/-- The field-merge section of `SubscriptionService.Update` (the entity
mutator): each present field overwrites the in-memory copy, date strings
are re-parsed through `ParseMonthYear` with errors aborting the merge, and
a present-but-empty end date clears the field. -/
def applyUpdateFields (existingSub : Subscription) (req : UpdateSubscriptionRequest) :
    Except GoErr Subscription := do
  let sub1 := match req.ServiceName with
    | some v => { existingSub with ServiceName := v }
    | none => existingSub
  let sub2 := match req.Price with
    | some v => { sub1 with Price := v }
    | none => sub1
  let sub3 ← match req.StartDate with
    | some sd => do
      let d ← ParseMonthYear "start_date" sd
      pure { sub2 with StartDate := d }
    | none => pure sub2
  let sub4 ← match req.EndDate with
    | some ed =>
      if ed ≠ "" then do
        let d ← ParseMonthYear "end_date" ed
        pure { sub3 with EndDate := some d }
      else pure { sub3 with EndDate := none }
    | none => pure sub3
  pure sub4

/-- Model of `SubscriptionService.Update`: validate, parse the id, fetch, merge in
memory, then persist; the second component records the repository calls
made. -/
def serviceUpdate (db : DB) (id : String) (req : UpdateSubscriptionRequest) :
    DB × List RepoCall × Except GoErr Subscription :=
  match validateUpdateRequest req with
  | .error e => (db, [], .error e)
  | .ok _ =>
    match uuidParse id with
    | none => (db, [], .error (.validation "incorrect format subscription ID (expected UUID)"))
    | some subID =>
      match repoGetByID db subID with
      | none => (db, [.getByID subID], .error .notFound)
      | some existingSub =>
        match applyUpdateFields existingSub req with
        | .error e => (db, [.getByID subID], .error e)
        | .ok merged =>
          match repoUpdate db merged with
          | (db2, .error e) =>
            (db2, [.getByID subID, .update merged.ID],
             .error (.other ("failed to save updated subscription: " ++ errString e)))
          | (db2, .ok sub) => (db2, [.getByID subID, .update merged.ID], .ok sub)

/-- Model of `SubscriptionService.Delete`: parse the id, delete through the
repository, and turn a false `deleted` report into `ErrNotFound`; the
result carries (state, repository calls, deleted flag, error). -/
def serviceDelete (db : DB) (idStr : String) : DB × List RepoCall × Bool × Option GoErr :=
  match uuidParse idStr with
  | none => (db, [], false, some (.validation "incorrect format ID (expected UUID)"))
  | some id =>
    match repoDelete db id with
    | (db2, deleted) =>
      if !deleted then (db2, [.delete id], false, some .notFound)
      else (db2, [.delete id], true, none)

/-- An HTTP status and response body (for error bodies, the `error` field
of the JSON object). -/
structure HTTPResponse where
  status : Nat
  body : String
deriving DecidableEq, Repr

/-- Model of `handler.RespondServiceError`: validation errors become 400 with the
extracted message, not-found becomes 404, anything else 500. -/
def respondServiceError (e : GoErr) : HTTPResponse :=
  match e with
  | .validation m => ⟨400, userFacingErrorMessage (errString (.validation m))⟩
  | .notFound => ⟨404, "Subscription not found"⟩
  | .other _ => ⟨500, "Internal Server Error"⟩

/-- Model of `handler.DeleteSubscription` after the mux lookup: dispatch to the
service and map the outcome to an HTTP response. -/
def handlerDeleteSubscription (db : DB) (id : String) : DB × HTTPResponse :=
  match serviceDelete db id with
  | (db2, _, _, some e) => (db2, respondServiceError e)
  | (db2, _, deleted, none) =>
    if !deleted then (db2, ⟨404, "Subscription not found"⟩) else (db2, ⟨204, ""⟩)

/-- Full inversion of a successful field merge: the identity fields are
untouched, plain fields follow present-overwrites-absent, and date fields
were parsed. -/
theorem applyUpdateFields_ok_inv {e : Subscription} {req : UpdateSubscriptionRequest}
    {s : Subscription} (h : applyUpdateFields e req = .ok s) :
    s.ID = e.ID ∧ s.UserID = e.UserID ∧ s.CreatedAt = e.CreatedAt ∧
    s.ServiceName = (match req.ServiceName with | some v => v | none => e.ServiceName) ∧
    s.Price = (match req.Price with | some v => v | none => e.Price) ∧
    (match req.StartDate with
     | none => s.StartDate = e.StartDate
     | some sd => ParseMonthYear "start_date" sd = .ok s.StartDate) ∧
    (match req.EndDate with
     | none => s.EndDate = e.EndDate
     | some ed =>
       if ed = "" then s.EndDate = none
       else ∃ d, ParseMonthYear "end_date" ed = .ok d ∧ s.EndDate = some d) := by
  obtain ⟨osn, opr, osd, oed⟩ := req
  rcases osn with _ | sn <;> rcases opr with _ | pv <;> rcases osd with _ | sd <;>
    rcases oed with _ | ed <;>
    simp only [applyUpdateFields, bind, Except.bind, pure, Except.pure] at h <;>
    repeat' split at h
  all_goals
    first
      | exact Except.noConfusion h
      | (injection h with h1
         subst h1
         simp_all)

/-- The start-date field of an update request is absent or parses. -/
def startFieldOK (req : UpdateSubscriptionRequest) : Prop :=
  req.StartDate = none ∨
  ∃ sd d, req.StartDate = some sd ∧ ParseMonthYear "start_date" sd = .ok d

/-- C4: end-date merge semantics — an absent field keeps the prior end
date, a present-but-empty string clears it, and a present non-empty string
is parsed by the MM-YYYY rule and set, with a parse failure propagated as
the operation's error. -/
theorem update_end_date_semantics (e : Subscription) (req : UpdateSubscriptionRequest)
    (_hv : validateUpdateRequest req = .ok ()) :
    (req.EndDate = none → ∀ s, applyUpdateFields e req = .ok s → s.EndDate = e.EndDate) ∧
    (req.EndDate = some "" → ∀ s, applyUpdateFields e req = .ok s → s.EndDate = none) ∧
    (∀ ed, req.EndDate = some ed → ed ≠ "" →
      (∀ s, applyUpdateFields e req = .ok s →
        ∃ d, ParseMonthYear "end_date" ed = .ok d ∧ s.EndDate = some d) ∧
      (∀ er, ParseMonthYear "end_date" ed = .error er → startFieldOK req →
        applyUpdateFields e req = .error er)) := by
  refine ⟨?_, ?_, ?_⟩
  · intro hne s hs
    have hinv := (applyUpdateFields_ok_inv hs).2.2.2.2.2.2
    simp only [hne] at hinv
    exact hinv
  · intro he s hs
    have hinv := (applyUpdateFields_ok_inv hs).2.2.2.2.2.2
    simp only [he] at hinv
    simpa using hinv
  · intro ed he hne
    constructor
    · intro s hs
      have hinv := (applyUpdateFields_ok_inv hs).2.2.2.2.2.2
      simp only [he] at hinv
      rwa [if_neg hne] at hinv
    · intro er hper hok
      rcases hok with hnone | ⟨sd, d, hsd, hpd⟩
      · simp [applyUpdateFields, bind, Except.bind, pure, Except.pure, hnone, he, hne, hper]
      · simp [applyUpdateFields, bind, Except.bind, pure, Except.pure, hsd, hpd, he, hne,
          hper]

/-- Sample stored date (2025-07-01). -/
def sampleDate : GoDate := ⟨2025, 7, 1, 0, 0, 0⟩

/-- Sample stored end date (2026-01-01). -/
def sampleDate2 : GoDate := ⟨2026, 1, 1, 0, 0, 0⟩

/-- Sample subscription id (the zero UUID). -/
def sampleID : GoUUID := List.replicate 16 0

/-- Sample owning user id. -/
def sampleUser : GoUUID := List.replicate 16 17

/-- Sample stored subscription row. -/
def sampleSub : Subscription :=
  ⟨sampleID, "Netflix", 500, sampleUser, sampleDate, some sampleDate2, 42⟩

/-- Concrete instance of C4: updating with a present-but-empty end date
clears a previously set end date. -/
theorem update_end_date_semantics_witness :
    applyUpdateFields sampleSub ⟨none, none, none, some ""⟩ =
      .ok { sampleSub with EndDate := none } ∧
    ({ sampleSub with EndDate := none } : Subscription).EndDate = none := by
  constructor
  · rfl
  · exact (update_end_date_semantics sampleSub ⟨none, none, none, some ""⟩ rfl).2.1 rfl
      { sampleSub with EndDate := none } rfl

/-- C5: a price-only update changes only the price, and every successful
update returns an entity whose identifier, owning user and creation
timestamp equal those of the previously stored entity. -/
theorem update_price_only_frame :
    (∀ (e : Subscription) (p : Int),
      applyUpdateFields e ⟨none, some p, none, none⟩ = .ok { e with Price := p }) ∧
    (∀ (db : DB) (id : String) (req : UpdateSubscriptionRequest)
      (db2 : DB) (log : List RepoCall) (s2 : Subscription),
      serviceUpdate db id req = (db2, log, .ok s2) →
      ∃ u e0, uuidParse id = some u ∧ repoGetByID db u = some e0 ∧
        s2.ID = e0.ID ∧ s2.UserID = e0.UserID ∧ s2.CreatedAt = e0.CreatedAt) := by
  constructor
  · intro e p
    rfl
  · intro db id req db2 log s2 h
    rcases hv : validateUpdateRequest req with er | u0 <;> simp only [serviceUpdate, hv] at h
    · simp at h
    · rcases hu : uuidParse id with _ | u <;> simp only [hu] at h
      · simp at h
      · rcases hf : repoGetByID db u with _ | e0 <;> simp only [hf] at h
        · simp at h
        · rcases ha : applyUpdateFields e0 req with er2 | merged <;> simp only [ha] at h
          · simp at h
          · have hinv := applyUpdateFields_ok_inv ha
            have hf2 : db.find? (fun r => r.ID == u) = some e0 := hf
            have he0 : e0.ID = u := by
              have := List.find?_some hf2
              simpa using this
            have hmid : merged.ID = u := by rw [hinv.1, he0]
            have hfind2 : db.find? (fun r => r.ID == merged.ID) = some e0 := by
              simp only [hmid]
              exact hf2
            simp only [repoUpdate, hfind2] at h
            simp only [Prod.mk.injEq, Except.ok.injEq] at h
            obtain ⟨-, -, hs2⟩ := h
            refine ⟨u, e0, rfl, hf, ?_, ?_, ?_⟩
            · rw [← hs2]
              show merged.ID = e0.ID
              exact hinv.1
            · rw [← hs2]
              show merged.UserID = e0.UserID
              exact hinv.2.1
            · rw [← hs2]

/-- Concrete instance of C5: a price-only update of the sample row keeps
every other field, and the full update operation preserves id, user and
creation timestamp. -/
theorem update_price_only_frame_witness :
    applyUpdateFields sampleSub ⟨none, some 700, none, none⟩ =
      .ok { sampleSub with Price := 700 } ∧
    (∃ u e0, uuidParse "00000000-0000-0000-0000-000000000000" = some u ∧
      repoGetByID [sampleSub] u = some e0 ∧
      ({ sampleSub with Price := 700 } : Subscription).ID = e0.ID ∧
      ({ sampleSub with Price := 700 } : Subscription).UserID = e0.UserID ∧
      ({ sampleSub with Price := 700 } : Subscription).CreatedAt = e0.CreatedAt) := by
  constructor
  · exact update_price_only_frame.1 sampleSub 700
  · exact update_price_only_frame.2 [sampleSub] "00000000-0000-0000-0000-000000000000"
      ⟨none, some 700, none, none⟩ [{ sampleSub with Price := 700 }]
      [RepoCall.getByID sampleID, RepoCall.update sampleID]
      { sampleSub with Price := 700 } (by decide)

/-- C6: when a present date string fails the MM-YYYY parse, the update
operation returns that validation error, leaves the store untouched, and
never invokes the persistence gateway's update. -/
theorem update_parse_failure_no_write (db : DB) (id : String)
    (req : UpdateSubscriptionRequest) (u : GoUUID) (e0 : Subscription)
    (hv : validateUpdateRequest req = .ok ()) (hu : uuidParse id = some u)
    (hf : repoGetByID db u = some e0)
    (hfail :
      (∃ sd er, req.StartDate = some sd ∧ ParseMonthYear "start_date" sd = .error er) ∨
      (∃ ed er, req.EndDate = some ed ∧ ed ≠ "" ∧
        ParseMonthYear "end_date" ed = .error er)) :
    ∃ er, serviceUpdate db id req = (db, [RepoCall.getByID u], .error er) ∧
      (∀ v, RepoCall.update v ∉ [RepoCall.getByID u]) ∧
      ((∃ sd, req.StartDate = some sd ∧ ParseMonthYear "start_date" sd = .error er) ∨
       (∃ ed, req.EndDate = some ed ∧ ParseMonthYear "end_date" ed = .error er)) := by
  have happ : ∃ er, applyUpdateFields e0 req = .error er ∧
      ((∃ sd, req.StartDate = some sd ∧ ParseMonthYear "start_date" sd = .error er) ∨
       (∃ ed, req.EndDate = some ed ∧ ParseMonthYear "end_date" ed = .error er)) := by
    rcases hsd : req.StartDate with _ | sd
    · rcases hfail with ⟨sd2, er, hsd2, _⟩ | ⟨ed, er, hed, hne, hper⟩
      · rw [hsd] at hsd2
        exact Option.noConfusion hsd2
      · refine ⟨er, ?_, Or.inr ⟨ed, hed, hper⟩⟩
        simp [applyUpdateFields, bind, Except.bind, pure, Except.pure, hsd, hed, hne, hper]
    · rcases hps : ParseMonthYear "start_date" sd with er1 | d1
      · refine ⟨er1, ?_, Or.inl ⟨sd, rfl, hps⟩⟩
        simp [applyUpdateFields, bind, Except.bind, pure, Except.pure, hsd, hps]
      · rcases hfail with ⟨sd2, er, hsd2, hper⟩ | ⟨ed, er, hed, hne, hper⟩
        · rw [hsd] at hsd2
          injection hsd2 with hh
          subst hh
          rw [hps] at hper
          exact Except.noConfusion hper
        · refine ⟨er, ?_, Or.inr ⟨ed, hed, hper⟩⟩
          simp [applyUpdateFields, bind, Except.bind, pure, Except.pure, hsd, hps, hed,
            hne, hper]
  obtain ⟨er, happ2, hsrc⟩ := happ
  refine ⟨er, ?_, by simp, hsrc⟩
  simp only [serviceUpdate, hv, hu, hf, happ2]

/-- Concrete instance of C6: an update carrying the malformed start date
"13-2025" errors out with the store unchanged and no update call. -/
theorem update_parse_failure_no_write_witness :
    ∃ er, serviceUpdate [sampleSub] "00000000-0000-0000-0000-000000000000"
        ⟨none, none, some "13-2025", none⟩ =
      ([sampleSub], [RepoCall.getByID sampleID], .error er) ∧
      (∀ v, RepoCall.update v ∉ [RepoCall.getByID sampleID]) ∧
      ((∃ sd, (⟨none, none, some "13-2025", none⟩ : UpdateSubscriptionRequest).StartDate =
          some sd ∧ ParseMonthYear "start_date" sd = .error er) ∨
       (∃ ed, (⟨none, none, some "13-2025", none⟩ : UpdateSubscriptionRequest).EndDate =
          some ed ∧ ParseMonthYear "end_date" ed = .error er)) :=
  update_parse_failure_no_write [sampleSub] "00000000-0000-0000-0000-000000000000"
    ⟨none, none, some "13-2025", none⟩ sampleID sampleSub (by decide) (by decide)
    (by decide)
    (Or.inl ⟨"13-2025",
      GoErr.validation "incorrect format start_date (expected MM-YYYY)", rfl, by decide⟩)

/-- C7 counterexample: for the well-formed zero UUID absent from an empty
store, `SubscriptionService.Delete` does not report plain `false` — it
returns `false` together with `ErrNotFound`, i.e. an error, contradicting
the claim that "nothing deleted" is signalled as a normal boolean result
rather than an error. -/
theorem delete_not_found_counterexample :
    serviceDelete ([] : DB) "00000000-0000-0000-0000-000000000000" =
      ([], [RepoCall.delete (List.replicate 16 0)], false, some GoErr.notFound) ∧
    (serviceDelete ([] : DB) "00000000-0000-0000-0000-000000000000").2.2.2 ≠ none := by
  constructor
  · decide
  · decide

/-- C7 (amended): for a well-formed identifier absent from the store, the
service delete returns `false` together with `ErrNotFound`, and the
transport layer converts that error into a 404 Not Found response. -/
theorem delete_not_found_amended (db : DB) (idStr : String) (u : GoUUID)
    (hu : uuidParse idStr = some u) (habs : ∀ r ∈ db, ¬(r.ID = u)) :
    serviceDelete db idStr = (db, [RepoCall.delete u], false, some GoErr.notFound) ∧
    handlerDeleteSubscription db idStr = (db, ⟨404, "Subscription not found"⟩) := by
  have h1 : db.filter (fun r => !(r.ID == u)) = db :=
    List.filter_eq_self.mpr (fun r hr => by simpa using habs r hr)
  have h2 : db.any (fun r => r.ID == u) = false := by
    rw [List.any_eq_false]
    intro r hr
    simpa using habs r hr
  have hdel : repoDelete db u = (db, false) := by
    simp [repoDelete, h1, h2]
  have hsrv : serviceDelete db idStr = (db, [RepoCall.delete u], false, some GoErr.notFound) := by
    simp [serviceDelete, hu, hdel]
  refine ⟨hsrv, ?_⟩
  simp [handlerDeleteSubscription, hsrv, respondServiceError]

/-- Concrete instance of the amended C7 on the empty store. -/
theorem delete_not_found_amended_witness :
    serviceDelete ([] : DB) "11111111-1111-1111-1111-111111111111" =
      ([], [RepoCall.delete (List.replicate 16 17)], false, some GoErr.notFound) ∧
    handlerDeleteSubscription ([] : DB) "11111111-1111-1111-1111-111111111111" =
      ([], ⟨404, "Subscription not found"⟩) :=
  delete_not_found_amended [] "11111111-1111-1111-1111-111111111111"
    (List.replicate 16 17) (by decide) (by intro r hr; cases hr)
